import Mathlib

set_option autoImplicit false

/-!
Verification of the osbuild-otk resolution engine excerpt.

The development shallowly embeds the repository's `otk/command.py` (the CLI
group `root` and the `compile` subcommand) and the variable-substitution
engine exercised by `test/test_substitute_vars.py`.  Python values are
embedded as the inductive `Value`; the external collaborators that
`command.py` imports (`transform.resolve`, the registries, the YAML loader,
the renderers) are passed in explicitly as a `Collaborators` record, exactly
as `compile` consumes them.
-/

/-- The document-tree / variable value data model: a node is a scalar
(string, integer, float, boolean, null), an ordered sequence, or an
insertion-ordered string-keyed mapping.  Floats are embedded as exact
decimals `mantissa / 10 ^ fracDigits`; no claim depends on binary float
formatting. -/
inductive Value where
  | vnull
  | vbool (b : Bool)
  | vint (n : Int)
  | vfloat (mantissa : Int) (fracDigits : Nat)
  | vstr (s : String)
  | vseq (elems : List Value)
  | vmap (entries : List (String × Value))

/-- Zero-padded decimal digits of a natural number, as used for the
fractional part of a float's textual form. -/
def natDigitsPadded (n : Nat) (width : Nat) : String :=
  let s := toString n
  String.mk (List.replicate (width - s.length) '0' ++ s.data)

/-- Textual form of the embedded decimal float `mantissa / 10 ^ fracDigits`. -/
def floatStr (m : Int) (e : Nat) : String :=
  if e = 0 then toString m ++ ".0"
  else
    let a := m.natAbs
    let p := 10 ^ e
    (if m < 0 then "-" else "") ++ toString (a / p) ++ "." ++ natDigitsPadded (a % p) e

/-- Python `str` on the values the substitution engine may stringify.
The engine rejects composite and null values before stringifying (see
`isSubstitutable`), so the `vnull`, `vseq` and `vmap` branches are never
reached from `scanSub`. -/
def pyStr : Value → String
  | .vstr s => s
  | .vint n => toString n
  | .vfloat m e => floatStr m e
  | .vbool true => "True"
  | .vbool false => "False"
  | .vnull => "None"
  | .vseq _ => ""
  | .vmap _ => ""

/-- Python `type(value).__name__` for the embedded values, as it appears in
the type-error message fixed by `test_substitute_vars.py` ("list", "dict"). -/
def pyTypeName : Value → String
  | .vnull => "NoneType"
  | .vbool _ => "bool"
  | .vint _ => "int"
  | .vfloat _ _ => "float"
  | .vstr _ => "str"
  | .vseq _ => "list"
  | .vmap _ => "dict"

/-- Whether a value may be substituted into the middle of a string: the
whitelist `isinstance(value, (int, float, str))` that the tests' expected
error message ("expected int, float, or str but got ...") fixes.  Python
booleans are a subclass of `int`, hence substitutable; null, sequences and
mappings are not. -/
def isSubstitutable : Value → Bool
  | .vstr _ => true
  | .vint _ => true
  | .vfloat _ _ => true
  | .vbool _ => true
  | _ => false

/-- Whether a value is a composite (sequence or mapping). -/
def isComposite : Value → Bool
  | .vseq _ => true
  | .vmap _ => true
  | _ => false

/-- The `CommonContext` of `otk/context.py`: a symbol table plus the include
root and the duplicate-definition warning policy, as constructed by
`command.py` (`CommonContext(root, **ctx.obj["context"])`) and by the tests
(`CommonContext()`). -/
structure CommonContext where
  includeRoot : Option String := none
  duplicateDefinitionsWarning : Bool := false
  vars : List (String × Value) := []

/-- `CommonContext.define`: bind a variable name to a value; a redefinition
shadows (observationally: silently overwrites) the earlier binding. -/
def CommonContext.define (c : CommonContext) (n : String) (v : Value) : CommonContext :=
  { c with vars := (n, v) :: c.vars }

/-- `CommonContext.variable`: look a variable name up in the symbol table
(`variable` is a Lean keyword, hence the name `lookup`). -/
def CommonContext.lookup (c : CommonContext) (n : String) : Option Value :=
  (c.vars.find? (fun p => p.1 == n)).map (·.2)

/-- The two failure modes of the substitution engine: a placeholder whose
value has a non-substitutable type (carrying the partially substituted
string and the Python type name), and a reference to an undefined
variable. -/
inductive SubError where
  | typeError (partialText : String) (got : String)
  | undefinedVar (name : String)

/-- Split a character list at the first occurrence of `c`, dropping it. -/
def breakAt (c : Char) : List Char → Option (List Char × List Char)
  | [] => none
  | x :: xs =>
    if x = c then some ([], xs)
    else (breakAt c xs).map (fun p => (x :: p.1, p.2))

/-- Modelled from the spec: the placeholder scanner of `substitute_vars`
(`otk/directive.py` is not part of the excerpt).  Scans the input left to
right; on `"${"` it collects the name up to the first `'}'` and substitutes
the bound value's string form in place when the value is substitutable,
fails with the partially substituted string otherwise, exactly as spec
section 4.1 steps 2 and 3 and the tests' expected error strings describe.
An unclosed trailing `"${"` is emitted literally (no placeholder matches
there).  `mode = some nameAcc` means the scanner is inside a placeholder
name; `acc` is the already-substituted output. -/
def scanSub (f : String → Option Value) :
    Option (List Char) → List Char → List Char → Except SubError (List Char)
  | none, acc, [] => .ok acc
  | none, acc, '$' :: '{' :: rest => scanSub f (some []) acc rest
  | none, acc, c :: rest => scanSub f none (acc ++ [c]) rest
  | some nameAcc, acc, [] => .ok (acc ++ '$' :: '{' :: nameAcc)
  | some nameAcc, acc, '}' :: rest =>
    (match f (String.mk nameAcc) with
     | none => .error (.undefinedVar (String.mk nameAcc))
     | some v =>
       if isSubstitutable v then scanSub f none (acc ++ (pyStr v).data) rest
       else .error (.typeError (String.mk (acc ++ '$' :: '{' :: (nameAcc ++ '}' :: rest)))
                      (pyTypeName v)))
  | some nameAcc, acc, c :: rest => scanSub f (some (nameAcc ++ [c])) acc rest

/-- Modelled from the spec: the entire-string placeholder test of
`substitute_vars` (spec section 4.1 step 1).  The whole input must be
exactly `"${" ++ name ++ "}"`; returns the name. -/
def wholeMatch : List Char → Option (List Char)
  | '$' :: '{' :: rest =>
    (match breakAt '}' rest with
     | some (nm, []) => some nm
     | _ => none)
  | _ => none

/-- Modelled from the spec: `substitute_vars(context, data)` of
`otk/directive.py` (not part of the excerpt; spec section 4.1 and the tests
in `src/test/test_substitute_vars.py` fix its behavior).  A whole-string
placeholder returns the bound value unchanged in type; otherwise
placeholders are substituted in place left to right, failing on
non-substitutable values with the partially substituted string. -/
def substitute_vars (ctx : CommonContext) (text : String) : Except SubError Value :=
  match wholeMatch text.data with
  | some nm =>
    (match ctx.lookup (String.mk nm) with
     | some v => .ok v
     | none => .error (.undefinedVar (String.mk nm)))
  | none => (scanSub ctx.lookup none [] text.data).map (fun cs => .vstr (String.mk cs))

example :
    substitute_vars ((({} : CommonContext).define "my_var" (.vstr "foo"))) "${my_var}" =
      .ok (.vstr "foo") := rfl

example :
    substitute_vars ((({} : CommonContext).define "my_var" (.vseq [.vint 1, .vint 2]))) "${my_var}" =
      .ok (.vseq [.vint 1, .vint 2]) := rfl

example :
    substitute_vars ((({} : CommonContext).define "my_var" (.vseq [.vint 1, .vint 2]))) "a${my_var}" =
      .error (.typeError "a${my_var}" "list") := rfl

example :
    substitute_vars (((({} : CommonContext).define "a" (.vstr "foo")).define "b" (.vstr "bar")))
        "${a}-${b}" = .ok (.vstr "foo-bar") := rfl

example :
    substitute_vars (((({} : CommonContext).define "a" (.vstr "foo")).define "b"
        (.vseq [.vint 1, .vint 2]))) "${a}-${b}" =
      .error (.typeError "foo-${b}" "list") := rfl

example :
    substitute_vars (((({} : CommonContext).define "a" (.vstr "foo")).define "c"
        (.vmap [("one", .vint 1)]))) "${a}-${c}" =
      .error (.typeError "foo-${c}" "dict") := rfl

/-- Modelled from the spec: the reserved prefix marking top-level target
entries (`constant.PREFIX_TARGET`; `constant.py` is not part of the excerpt,
the spec only speaks of "a reserved prefix").  Every claim below holds for
any fixed value of this constant. -/
def PREFIX_TARGET : String := "otk.target."

/-- A kind-specific Context value, as produced by a constructor registered
in `context.registry` and consumed by the second resolution pass and the
renderer.  It is a distinct type from `CommonContext`: the target pass never
receives the top-level `CommonContext` itself, only a value the registered
constructor freshly builds from it (`context_registry[kind](ctx)`). -/
structure KindContext where
  seededFrom : CommonContext
  vars : List (String × Value) := []

/-- A renderer registered in `target.registry` (`target_registry[kind]()`):
its `as_string` method serializes a resolved target subtree under the
kind-specific Context. -/
structure TargetImpl where
  asString : KindContext → Value → String

/-- The external collaborators `command.py` imports: `transform.resolve`
(used once with the top-level `CommonContext` and once with the
kind-specific Context, hence two fields for Python's single duck-typed
function), the kind → Context-constructor registry of `context.py`, and the
kind → renderer registry of `target.py` (a registered class, embedded as the
already-applied zero-argument constructor). -/
structure Collaborators where
  resolve : CommonContext → Value → Value
  resolveKind : KindContext → Value → Value
  contextRegistry : List (String × (CommonContext → KindContext))
  targetRegistry : List (String × (Unit → TargetImpl))

/-- Python `dict[key]` lookup in a registry: `some` the registered entry, or
`none` for the `KeyError` an unregistered kind raises. -/
def registryLookup {α : Type} (reg : List (String × α)) (k : String) : Option α :=
  (reg.find? (fun p => p.1 == k)).map (·.2)

/-- The per-invocation mapping `ctx.obj["context"]` that the `root` group
callback hands to every subcommand. -/
structure RootObj where
  duplicateDefinitionsWarning : Bool

/-- The outcome of the `root` group callback: either `sys.exit(1)` after
logging the configuration error, or proceeding into the subcommand with the
context object. -/
inductive RootOutcome where
  | exited (logged : String) (code : Nat)
  | proceeds (obj : RootObj)

/-- Python truthiness of the `-i` identifier option: `None` (not passed) and
the empty string are falsy. -/
def identifierTruthy : Option String → Bool
  | none => false
  | some s => !(s == "")

/-- The `root` group callback of `command.py`: builds `ctx.obj["context"]`
from the `-w` flags, then — after installing the log handlers — errors out
with `sys.exit(1)` when `-i` was given a truthy identifier without `-j`. -/
def root (jsonMode : Bool) (identifier : Option String) (warn : List String) : RootOutcome :=
  let obj : RootObj := { duplicateDefinitionsWarning := warn.contains "duplicate-definition" }
  if identifierTruthy identifier && !jsonMode then
    .exited "cannot use `-i` without also using `-j`" 1
  else
    .proceeds obj

/-- The reports carried by the three `log.fatal` calls in `compile`, with
the format arguments each call interpolates. -/
inductive FatalReport where
  | noTargets
  | multipleTargets (available : List String)
  | unknownTarget (requested : String) (available : List String)

/-- The result of the `compile` subcommand body.  `dumped` is the
`--no-external` branch (`print(json.dumps(tree, indent=2)); return 1` — the
serialized payload is the resolved tree itself, `json.dumps` being an
external library); `fatal` pairs a `log.fatal` report with `return 1`;
`registryError` is the uncaught `KeyError` of an unregistered kind;
`rendered` is the final `print(target.as_string(context, tree))`. -/
inductive CompileResult where
  | dumped (tree : Value)
  | fatal (report : FatalReport)
  | registryError (registryName : String) (kind : String)
  | rendered (outputText : String)

/-- The `CommonContext(root, **ctx.obj["context"])` construction at the top
of `compile`. -/
def initContext (inputRoot : String) (obj : RootObj) : CommonContext :=
  { includeRoot := some inputRoot
    duplicateDefinitionsWarning := obj.duplicateDefinitionsWarning
    vars := [] }

/-- `tree.items()` of the resolved top-level tree (a mapping). -/
def items : Value → List (String × Value)
  | .vmap kvs => kvs
  | _ => []

/-- Python `str.startswith`, computed on the underlying character lists. -/
def strStartsWith (p s : String) : Bool := p.data.isPrefixOf s.data

/-- Python `str.removeprefix`. -/
def removePrefixStr (p s : String) : String :=
  if strStartsWith p s then String.mk (s.data.drop p.length) else s

/-- The `available_targets` dict comprehension of `compile`: top-level
entries whose key starts with the reserved prefix, keyed by the stripped
name, values deep-copied (the embedding has value semantics, so `deepcopy`
is the identity). -/
def availableTargets (tree : Value) : List (String × Value) :=
  (items tree).filterMap fun kv =>
    if strStartsWith PREFIX_TARGET kv.1 then some (removePrefixStr PREFIX_TARGET kv.1, kv.2)
    else none

/-- Python truthiness of `requested_target` in `if not requested_target:`. -/
def falsy : Option String → Bool
  | none => true
  | some s => s == ""

/-- The target-selection checks of `compile`, in source order: no targets at
all; no explicit request and more than one candidate; an explicit request
absent from the candidates (after defaulting a missing request to the single
candidate). -/
def selectTarget (avail : List (String × Value)) (req : Option String) :
    Except FatalReport (String × Value) :=
  match avail with
  | [] => .error .noTargets
  | (k0, v0) :: rest =>
    let names := ((k0, v0) :: rest).map (·.1)
    let pick : Except FatalReport String :=
      if falsy req then
        if rest.isEmpty then .ok k0
        else .error (.multipleTargets names)
      else .ok (req.getD "")
    match pick with
    | .error r => .error r
    | .ok requested =>
      match ((k0, v0) :: rest).find? (fun p => p.1 == requested) with
      | none => .error (.unknownTarget requested names)
      | some p => .ok p

/-- `name.split(".")[0]`: the portion of the candidate name before the first
dot (the whole name when it has no dot). -/
def kindOf (name : String) : String :=
  String.mk (name.data.takeWhile (fun c => c != '.'))

/-- The tail of `compile` once a target is selected: extract the kind, look
it up in both registries (an absent kind raises `KeyError`), construct the
kind-specific Context from the top-level one, resolve the selected subtree a
second time under it, and hand the result to the renderer. -/
def processTarget (collab : Collaborators) (ctx : CommonContext) (name : String) (tree : Value) :
    CompileResult :=
  let kind := kindOf name
  match registryLookup collab.contextRegistry kind with
  | none => .registryError "context" kind
  | some ctor =>
    match registryLookup collab.targetRegistry kind with
    | none => .registryError "target" kind
    | some mkTarget =>
      let context := ctor ctx
      let target := mkTarget ()
      let tree2 := collab.resolveKind context tree
      .rendered (target.asString context tree2)

/-- The `compile` subcommand body of `command.py`.  The input file is
embedded as its already-loaded document tree (`Omnifest.from_yaml_path` is
an external collaborator) together with its parent directory `inputRoot`;
the unused `output` argument is omitted.  Note that the resolution pass runs
before the `--external` flag is consulted, and that neither the flag nor any
derived datum is passed to `resolve` or stored in the Context. -/
def compile (collab : Collaborators) (obj : RootObj) (inputRoot : String) (docTree : Value)
    (external : Bool) (requestedTarget : Option String) : CompileResult :=
  let ctx := initContext inputRoot obj
  let tree := collab.resolve ctx docTree
  if !external then
    .dumped tree
  else
    match selectTarget (availableTargets tree) requestedTarget with
    | .error r => .fatal r
    | .ok (name, tree') => processTarget collab ctx name tree'

/-- A whole CLI invocation: the `root` group callback runs first and either
exits or hands its context object to the `compile` subcommand. -/
inductive RunResult where
  | startupError (logged : String) (code : Nat)
  | ran (r : CompileResult)

/-- Composition of the group callback and the subcommand, as click invokes
them. -/
def cliRun (jsonMode : Bool) (identifier : Option String) (warn : List String)
    (collab : Collaborators) (inputRoot : String) (docTree : Value)
    (external : Bool) (requestedTarget : Option String) : RunResult :=
  match root jsonMode identifier warn with
  | .exited msg code => .startupError msg code
  | .proceeds obj => .ran (compile collab obj inputRoot docTree external requestedTarget)

/-- Process exit status of a finished `compile` body.  The embedding equates
a command callback's numeric result with the exit status: the source pairs
every `log.fatal` with `return 1` (and the `--no-external` dump also
returns 1), falls off the end with `None` (status 0) after rendering, and an
uncaught `KeyError` terminates the interpreter with status 1. -/
def CompileResult.exitCode : CompileResult → Nat
  | .dumped _ => 1
  | .fatal _ => 1
  | .registryError _ _ => 1
  | .rendered _ => 0

/-- Process exit status of a whole invocation. -/
def RunResult.exitCode : RunResult → Nat
  | .startupError _ code => code
  | .ran r => r.exitCode

/-- The report a fatal outcome carries: the `log.error` message of the
startup configuration error, or the `log.fatal` report of a target-selection
failure.  Non-fatal outcomes carry none. -/
def RunResult.fatalReport : RunResult → Option (String ⊕ FatalReport)
  | .startupError logged _ => some (.inl logged)
  | .ran (.fatal r) => some (.inr r)
  | _ => none

theorem string_data_mk (l : List Char) : (String.mk l).data = l := rfl

theorem breakAt_append (c : Char) (l r : List Char) (h : c ∉ l) :
    breakAt c (l ++ c :: r) = some (l, r) := by
  induction l with
  | nil => simp [breakAt]
  | cons x xs ih =>
    have hx : x ≠ c := fun e => h (e ▸ List.mem_cons_self x xs)
    simp only [List.cons_append, breakAt, if_neg hx, List.append_eq]
    rw [ih (fun hm => h (List.mem_cons_of_mem x hm))]
    rfl

theorem scanSub_nil (f : String → Option Value) (acc : List Char) :
    scanSub f none acc [] = .ok acc := rfl

theorem scanSub_open (f : String → Option Value) (acc rest : List Char) :
    scanSub f none acc ('$' :: '{' :: rest) = scanSub f (some []) acc rest := rfl

theorem scanSub_close (f : String → Option Value) (nm acc rest : List Char) :
    scanSub f (some nm) acc ('}' :: rest) =
      (match f (String.mk nm) with
       | none => .error (.undefinedVar (String.mk nm))
       | some v =>
         if isSubstitutable v then scanSub f none (acc ++ (pyStr v).data) rest
         else .error (.typeError (String.mk (acc ++ '$' :: '{' :: (nm ++ '}' :: rest)))
                        (pyTypeName v))) := rfl

theorem scanSub_cons_outside (f : String → Option Value) (acc : List Char) (c : Char)
    (rest : List Char) (hc : c ≠ '$') :
    scanSub f none acc (c :: rest) = scanSub f none (acc ++ [c]) rest := by
  rw [scanSub.eq_def]
  split <;> simp_all

theorem scanSub_name_cons (f : String → Option Value) (nm acc : List Char) (c : Char)
    (rest : List Char) (hc : c ≠ '}') :
    scanSub f (some nm) acc (c :: rest) = scanSub f (some (nm ++ [c])) acc rest := by
  rw [scanSub.eq_def]
  split <;> simp_all

theorem scanSub_skip (f : String → Option Value) (p : List Char) (h : '$' ∉ p) :
    ∀ acc s, scanSub f none acc (p ++ s) = scanSub f none (acc ++ p) s := by
  induction p with
  | nil => intro acc s; simp
  | cons c cs ih =>
    intro acc s
    have hc : c ≠ '$' := fun e => h (e ▸ List.mem_cons_self c cs)
    rw [List.cons_append, scanSub_cons_outside f acc c (cs ++ s) hc,
      ih (fun hm => h (List.mem_cons_of_mem c hm)) (acc ++ [c]) s]
    simp

theorem scanSub_name_walk (f : String → Option Value) (nm2 : List Char) (h : '}' ∉ nm2) :
    ∀ nm1 acc s, scanSub f (some nm1) acc (nm2 ++ s) = scanSub f (some (nm1 ++ nm2)) acc s := by
  induction nm2 with
  | nil => intro nm1 acc s; simp
  | cons c cs ih =>
    intro nm1 acc s
    have hc : c ≠ '}' := fun e => h (e ▸ List.mem_cons_self c cs)
    rw [List.cons_append, scanSub_name_cons f nm1 acc c (cs ++ s) hc,
      ih (fun hm => h (List.mem_cons_of_mem c hm)) (nm1 ++ [c]) acc s]
    simp

theorem scanSub_tail (f : String → Option Value) (s : List Char) (h : '$' ∉ s) :
    ∀ acc, scanSub f none acc s = .ok (acc ++ s) := by
  induction s with
  | nil => intro acc; simp [scanSub_nil]
  | cons c cs ih =>
    intro acc
    have hc : c ≠ '$' := fun e => h (e ▸ List.mem_cons_self c cs)
    rw [scanSub_cons_outside f acc c cs hc, ih (fun hm => h (List.mem_cons_of_mem c hm))]
    simp

theorem wholeMatch_cons (c : Char) (s : List Char) (hc : c ≠ '$') :
    wholeMatch (c :: s) = none := by
  rw [wholeMatch.eq_def]
  split <;> simp_all

theorem wholeMatch_open (rest : List Char) :
    wholeMatch ('$' :: '{' :: rest) =
      (match breakAt '}' rest with
       | some (nm, []) => some nm
       | _ => none) := rfl

theorem wholeMatch_exact (nm : List Char) (h : '}' ∉ nm) :
    wholeMatch ('$' :: '{' :: (nm ++ ['}'])) = some nm := by
  rw [wholeMatch_open, breakAt_append '}' nm [] h]

theorem wholeMatch_with_tail (nm : List Char) (c : Char) (rest : List Char) (h : '}' ∉ nm) :
    wholeMatch ('$' :: '{' :: (nm ++ '}' :: (c :: rest))) = none := by
  rw [wholeMatch_open, breakAt_append '}' nm (c :: rest) h]

theorem composite_not_substitutable (v : Value) (h : isComposite v = true) :
    isSubstitutable v = false := by
  cases v <;> simp_all [isComposite, isSubstitutable]

/-- C1: for every string that is exactly one placeholder `${n}` and every
Context binding `n` to a value `v` of any type — scalar, sequence, or
mapping — `substitute_vars` returns `v` unchanged in type. -/
theorem substitute_whole_placeholder_returns_value (ctx : CommonContext) (n : String) (v : Value)
    (hn : '}' ∉ n.data) (hv : ctx.lookup n = some v) :
    substitute_vars ctx (String.mk ('$' :: '{' :: (n.data ++ ['}']))) = .ok v := by
  obtain ⟨nl⟩ := n
  simp only [substitute_vars, string_data_mk, wholeMatch_exact nl hn]
  rw [hv]

theorem substitute_whole_placeholder_returns_value_witness :
    ('}' ∉ ("my_var" : String).data) ∧
      substitute_vars (({} : CommonContext).define "my_var" (.vseq [.vint 1, .vint 2]))
          "${my_var}" =
        .ok (.vseq [.vint 1, .vint 2]) :=
  ⟨by decide,
    substitute_whole_placeholder_returns_value
      (({} : CommonContext).define "my_var" (.vseq [.vint 1, .vint 2])) "my_var"
      (.vseq [.vint 1, .vint 2]) (by decide) rfl⟩

/-- C2: on a string where an earlier placeholder (in left-to-right scan
order) is bound to a substitutable scalar and a later one to a composite
value, substitution fails with a type error whose string has the earlier
placeholder already replaced by its string form while the offending
placeholder remains as its literal un-substituted text (with any text after
it also left literal, as in the source's current `data`). -/
theorem substitute_scalar_then_composite_reports_partial (ctx : CommonContext)
    (s0 s1 s2 : List Char) (a b : String) (va vb : Value)
    (h0 : '$' ∉ s0) (h1 : '$' ∉ s1) (ha : '}' ∉ a.data) (hb : '}' ∉ b.data)
    (hva : ctx.lookup a = some va) (hsa : isSubstitutable va = true)
    (hvb : ctx.lookup b = some vb) (hcb : isComposite vb = true) :
    substitute_vars ctx
        (String.mk (s0 ++ '$' :: '{' ::
          (a.data ++ '}' :: (s1 ++ '$' :: '{' :: (b.data ++ '}' :: s2))))) =
      .error (.typeError
        (String.mk (s0 ++ (pyStr va).data ++ (s1 ++ '$' :: '{' :: (b.data ++ '}' :: s2))))
        (pyTypeName vb)) := by
  obtain ⟨al⟩ := a
  obtain ⟨bl⟩ := b
  have hwm : wholeMatch
      (s0 ++ '$' :: '{' :: (al ++ '}' :: (s1 ++ '$' :: '{' :: (bl ++ '}' :: s2)))) = none := by
    cases s0 with
    | nil =>
      cases s1 with
      | nil => simpa using wholeMatch_with_tail al '$' _ ha
      | cons c1 cs1 => simpa using wholeMatch_with_tail al c1 _ ha
    | cons c0 cs0 =>
      simpa using wholeMatch_cons c0 _ (fun e => h0 (e ▸ List.mem_cons_self c0 cs0))
  simp only [substitute_vars, string_data_mk, hwm]
  rw [scanSub_skip ctx.lookup s0 h0, scanSub_open, scanSub_name_walk ctx.lookup al ha,
    scanSub_close]
  simp only [List.nil_append, List.nil_append]
  rw [hva]
  simp only [hsa, if_true]
  rw [scanSub_skip ctx.lookup s1 h1, scanSub_open, scanSub_name_walk ctx.lookup bl hb,
    scanSub_close]
  simp only [List.nil_append]
  rw [hvb]
  simp only [composite_not_substitutable vb hcb, if_false, Except.map]
  simp [List.append_assoc]

theorem substitute_scalar_then_composite_reports_partial_witness :
    substitute_vars
        ((({} : CommonContext).define "a" (.vstr "foo")).define "b" (.vseq [.vint 1, .vint 2]))
        (String.mk ([] ++ '$' :: '{' ::
          (("a" : String).data ++ '}' ::
            (['-'] ++ '$' :: '{' :: (("b" : String).data ++ '}' :: []))))) =
      .error (.typeError
        (String.mk ([] ++ (pyStr (.vstr "foo")).data ++
          (['-'] ++ '$' :: '{' :: (("b" : String).data ++ '}' :: []))))
        (pyTypeName (.vseq [.vint 1, .vint 2]))) :=
  substitute_scalar_then_composite_reports_partial
    ((({} : CommonContext).define "a" (.vstr "foo")).define "b" (.vseq [.vint 1, .vint 2]))
    [] ['-'] [] "a" "b" (.vstr "foo") (.vseq [.vint 1, .vint 2])
    (by decide) (by decide) (by decide) (by decide) rfl rfl rfl rfl

/-- C3 counterexample: a placeholder bound to null (a value that is neither
a sequence nor a mapping) also raises the type error in a non-whole-string
substitution context, refuting "only sequence and mapping values cause a
type error".  The whitelist fixed by the tests' expected message ("expected
int, float, or str but got ...") rejects null with type name `NoneType`. -/
theorem substitute_null_not_composite_type_error :
    substitute_vars (({} : CommonContext).define "x" .vnull) "a${x}" =
        .error (.typeError "a${x}" "NoneType") ∧
      isComposite .vnull = false :=
  ⟨rfl, rfl⟩

/-- C3 (amended): in a non-whole-string substitution context a placeholder
bound to a boolean is substituted by its string form in place exactly as for
string, integer, and float values; every value outside that whitelist —
sequences, mappings, and also null — causes the type error. -/
theorem substitute_nonwhole_scalar_classes (ctx : CommonContext) (s0 s2 : List Char)
    (n : String) (v : Value)
    (h0 : '$' ∉ s0) (h2 : '$' ∉ s2) (hn : '}' ∉ n.data) (hnw : s0 ≠ [] ∨ s2 ≠ [])
    (hv : ctx.lookup n = some v) :
    substitute_vars ctx (String.mk (s0 ++ '$' :: '{' :: (n.data ++ '}' :: s2))) =
      if isSubstitutable v then .ok (.vstr (String.mk (s0 ++ (pyStr v).data ++ s2)))
      else .error (.typeError (String.mk (s0 ++ '$' :: '{' :: (n.data ++ '}' :: s2)))
        (pyTypeName v)) := by
  obtain ⟨nl⟩ := n
  have hwm : wholeMatch (s0 ++ '$' :: '{' :: (nl ++ '}' :: s2)) = none := by
    cases s0 with
    | nil =>
      rcases hnw with h | h
      · exact absurd rfl h
      · cases s2 with
        | nil => exact absurd rfl h
        | cons c2 cs2 => simpa using wholeMatch_with_tail nl c2 cs2 hn
    | cons c0 cs0 =>
      simpa using wholeMatch_cons c0 _ (fun e => h0 (e ▸ List.mem_cons_self c0 cs0))
  simp only [substitute_vars, string_data_mk, hwm]
  rw [scanSub_skip ctx.lookup s0 h0, scanSub_open, scanSub_name_walk ctx.lookup nl hn,
    scanSub_close]
  simp only [List.nil_append]
  rw [hv]
  cases hs : isSubstitutable v with
  | true =>
    simp only [hs, if_true]
    rw [scanSub_tail ctx.lookup s2 h2]
    simp [Except.map, List.append_assoc]
  | false =>
    simp [hs, Except.map]

theorem substitute_nonwhole_scalar_classes_witness :
    substitute_vars (({} : CommonContext).define "x" (.vbool true)) "a${x}" =
      .ok (.vstr "aTrue") := by
  have h := substitute_nonwhole_scalar_classes (({} : CommonContext).define "x" (.vbool true))
    ['a'] [] "x" (.vbool true) (by decide) (by decide) (by decide) (Or.inl (by decide)) rfl
  exact h

theorem takeWhile_until_dot (suf : List Char) :
    ∀ pre, '.' ∉ pre → (pre ++ '.' :: suf).takeWhile (fun c => c != '.') = pre := by
  intro pre
  induction pre with
  | nil => intro _; simp [List.takeWhile]
  | cons c cs ih =>
    intro hp
    have hc : c ≠ '.' := fun e => hp (e ▸ List.mem_cons_self c cs)
    simp only [List.cons_append, List.takeWhile_cons]
    rw [if_pos (by simp [hc]), ih (fun hm => hp (List.mem_cons_of_mem c hm))]

/-- A trivial renderer used by the concrete witnesses. -/
def trivialTarget : TargetImpl := ⟨fun _ _ => "rendered"⟩

/-- Concrete collaborators for the witnesses: the resolver passes trees
through unchanged and one kind, "osbuild", is registered in both
registries. -/
def demoCollab : Collaborators :=
  { resolve := fun _ t => t
    resolveKind := fun _ t => t
    contextRegistry := [("osbuild", fun c => { seededFrom := c })]
    targetRegistry := [("osbuild", fun _ => trivialTarget)] }

/-- A concrete context object for the witnesses. -/
def demoObj : RootObj := ⟨false⟩

/-- C4: compiling a document whose fully resolved top-level tree has no key
beginning with the reserved target prefix fails fatally with the no-target
report; the result is that fatal report, so no target is selected and
nothing is rendered. -/
theorem compile_without_targets_fails_no_target (collab : Collaborators) (obj : RootObj)
    (inputRoot : String) (doc t : Value) (req : Option String)
    (hres : collab.resolve (initContext inputRoot obj) doc = t)
    (hkeys : ∀ kv ∈ items t, strStartsWith PREFIX_TARGET kv.1 = false) :
    compile collab obj inputRoot doc true req = .fatal .noTargets := by
  have havail : availableTargets t = [] := by
    simp only [availableTargets, List.filterMap_eq_nil_iff]
    intro kv hkv
    simp [hkeys kv hkv]
  simp [compile, hres, havail, selectTarget]

theorem compile_without_targets_fails_no_target_witness :
    compile demoCollab demoObj "." (.vmap [("foo", .vnull)]) true none = .fatal .noTargets :=
  compile_without_targets_fails_no_target demoCollab demoObj "." (.vmap [("foo", .vnull)])
    (.vmap [("foo", .vnull)]) none rfl (by decide)

/-- C5: with no explicit target requested, a resolved tree with exactly one
reserved-prefix target entry selects that entry (compilation proceeds to its
processing), while more than one candidate is a fatal error listing all
candidate names. -/
theorem compile_default_target_selection (collab : Collaborators) (obj : RootObj)
    (inputRoot : String) (doc t : Value) (req : Option String)
    (hres : collab.resolve (initContext inputRoot obj) doc = t)
    (hfalsy : falsy req = true) :
    (∀ n v, availableTargets t = [(n, v)] →
      compile collab obj inputRoot doc true req =
        processTarget collab (initContext inputRoot obj) n v) ∧
    (1 < (availableTargets t).length →
      compile collab obj inputRoot doc true req =
        .fatal (.multipleTargets ((availableTargets t).map (·.1)))) := by
  constructor
  · intro n v ha
    simp [compile, hres, ha, selectTarget, hfalsy, List.find?]
  · intro hlen
    cases ha : availableTargets t with
    | nil => rw [ha] at hlen; simp at hlen
    | cons p rest =>
      cases rest with
      | nil => rw [ha] at hlen; simp at hlen
      | cons q rest2 =>
        obtain ⟨pk, pv⟩ := p
        simp [compile, hres, ha, selectTarget, hfalsy]

theorem compile_default_target_selection_witness :
    compile demoCollab demoObj "." (.vmap [("otk.target.osbuild", .vnull)]) true none =
        processTarget demoCollab (initContext "." demoObj) "osbuild" .vnull ∧
      compile demoCollab demoObj "."
          (.vmap [("otk.target.a", .vnull), ("otk.target.b", .vnull)]) true none =
        .fatal (.multipleTargets ["a", "b"]) := by
  constructor
  · exact (compile_default_target_selection demoCollab demoObj "."
      (.vmap [("otk.target.osbuild", .vnull)]) (.vmap [("otk.target.osbuild", .vnull)])
      none rfl rfl).1 "osbuild" .vnull rfl
  · exact (compile_default_target_selection demoCollab demoObj "."
      (.vmap [("otk.target.a", .vnull), ("otk.target.b", .vnull)])
      (.vmap [("otk.target.a", .vnull), ("otk.target.b", .vnull)])
      none rfl rfl).2 (by decide)

/-- C6: an explicitly requested target name (a truthy `-t` value) that is
not among the candidate names extracted from the resolved top-level tree is
a fatal error whose report lists the available candidate names. -/
theorem compile_unknown_requested_target_fails (collab : Collaborators) (obj : RootObj)
    (inputRoot : String) (doc t : Value) (s : String)
    (hres : collab.resolve (initContext inputRoot obj) doc = t)
    (hs : s ≠ "")
    (hne : availableTargets t ≠ [])
    (hnotin : ∀ p ∈ availableTargets t, p.1 ≠ s) :
    compile collab obj inputRoot doc true (some s) =
      .fatal (.unknownTarget s ((availableTargets t).map (·.1))) := by
  cases ha : availableTargets t with
  | nil => exact absurd ha hne
  | cons p rest =>
    obtain ⟨pk, pv⟩ := p
    have hfind : ((pk, pv) :: rest).find? (fun q => q.1 == s) = none := by
      rw [List.find?_eq_none]
      intro q hq
      have := hnotin q (by rw [ha]; exact hq)
      simp [this]
    have hfr : falsy (some s) = false := by simp [falsy, hs]
    simp [compile, hres, ha, selectTarget, hfr, hfind]

theorem compile_unknown_requested_target_fails_witness :
    compile demoCollab demoObj "." (.vmap [("otk.target.a", .vnull)]) true (some "b") =
      .fatal (.unknownTarget "b" ["a"]) :=
  compile_unknown_requested_target_fails demoCollab demoObj "."
    (.vmap [("otk.target.a", .vnull)]) (.vmap [("otk.target.a", .vnull)]) "b"
    rfl (by decide) (List.cons_ne_nil ("a", Value.vnull) []) (by decide)

/-- C7: for a selected target, the kind is the portion of the candidate name
before the first dot, that kind is looked up by exact string match in both
the Context-constructor registry and the renderer registry, the selected
subtree is resolved a second time under the kind context freshly built from
the top-level Context by the registered constructor (a `KindContext`, not
the top-level `CommonContext`), and that second resolution's result is
handed to the kind's renderer for serialization. -/
theorem compile_selected_target_second_resolution (collab : Collaborators) (obj : RootObj)
    (inputRoot : String) (doc t : Value) (req : Option String) (n : String) (v : Value)
    (ctor : CommonContext → KindContext) (mkT : Unit → TargetImpl)
    (hres : collab.resolve (initContext inputRoot obj) doc = t)
    (hsel : selectTarget (availableTargets t) req = .ok (n, v))
    (hctor : registryLookup collab.contextRegistry (kindOf n) = some ctor)
    (htgt : registryLookup collab.targetRegistry (kindOf n) = some mkT) :
    compile collab obj inputRoot doc true req =
        .rendered ((mkT ()).asString (ctor (initContext inputRoot obj))
          (collab.resolveKind (ctor (initContext inputRoot obj)) v)) ∧
    (∀ pre suf : List Char, n.data = pre ++ '.' :: suf → '.' ∉ pre →
      kindOf n = String.mk pre) := by
  constructor
  · simp [compile, hres, hsel, processTarget, hctor, htgt]
  · intro pre suf hdata hpre
    simp only [kindOf, hdata, takeWhile_until_dot suf pre hpre]

theorem compile_selected_target_second_resolution_witness :
    compile demoCollab demoObj "." (.vmap [("otk.target.osbuild.img", .vstr "T")]) true none =
        .rendered "rendered" ∧
      kindOf "osbuild.img" = "osbuild" :=
  ⟨(compile_selected_target_second_resolution demoCollab demoObj "."
      (.vmap [("otk.target.osbuild.img", .vstr "T")])
      (.vmap [("otk.target.osbuild.img", .vstr "T")]) none "osbuild.img" (.vstr "T")
      (fun c => { seededFrom := c }) (fun _ => trivialTarget) rfl rfl rfl rfl).1,
    (compile_selected_target_second_resolution demoCollab demoObj "."
      (.vmap [("otk.target.osbuild.img", .vstr "T")])
      (.vmap [("otk.target.osbuild.img", .vstr "T")]) none "osbuild.img" (.vstr "T")
      (fun c => { seededFrom := c }) (fun _ => trivialTarget) rfl rfl rfl rfl).2
      ("osbuild" : String).data ("img" : String).data (by decide) (by decide)⟩

/-- C8: every fatal condition of the error-handling design — the startup
identifier-without-structured-log error (`log.error` + `sys.exit(1)`) and
the no-target / ambiguous-target / unknown-target selection failures
(`log.fatal` + `return 1`) — carries its report in the outcome and
terminates the invocation with exit status 1; no fatal outcome is silently
swallowed into a zero exit.  The embedding equates a command callback's
numeric result with the process exit status. -/
theorem fatal_outcomes_reported_and_nonzero (jm : Bool) (idOpt : Option String)
    (warn : List String) (collab : Collaborators) (inputRoot : String) (doc : Value)
    (ext : Bool) (req : Option String) (rep : String ⊕ FatalReport)
    (h : (cliRun jm idOpt warn collab inputRoot doc ext req).fatalReport = some rep) :
    (cliRun jm idOpt warn collab inputRoot doc ext req).exitCode = 1 := by
  unfold cliRun root at h ⊢
  by_cases hb : (identifierTruthy idOpt && !jm) = true
  · simp [hb, RunResult.exitCode]
  · simp only [Bool.not_eq_true] at hb
    simp only [hb, Bool.false_eq_true, if_false] at h ⊢
    cases hc : compile collab { duplicateDefinitionsWarning := warn.contains "duplicate-definition" } inputRoot doc ext req with
    | fatal r => simp [RunResult.exitCode, CompileResult.exitCode, hc]
    | dumped t => rw [hc] at h; simp [RunResult.fatalReport] at h
    | registryError a b => rw [hc] at h; simp [RunResult.fatalReport] at h
    | rendered s => rw [hc] at h; simp [RunResult.fatalReport] at h

theorem fatal_outcomes_reported_and_nonzero_witness :
    (cliRun false none [] demoCollab "." (.vmap [("foo", .vnull)]) true none).fatalReport =
        some (.inr .noTargets) ∧
      (cliRun false none [] demoCollab "." (.vmap [("foo", .vnull)]) true none).exitCode = 1 :=
  ⟨rfl, fatal_outcomes_reported_and_nonzero false none [] demoCollab "."
    (.vmap [("foo", .vnull)]) true none (.inr .noTargets) rfl⟩

/-- A resolver collaborator standing for directive processing that expands
an external directive (the I/O-performing processing the spec says the
external-processing flag must disable): it rewrites the document tree. -/
def externalExpandingCollab : Collaborators :=
  { resolve := fun _ _ => .vmap [("expanded-external", .vint 1)]
    resolveKind := fun _ t => t
    contextRegistry := []
    targetRegistry := [] }

/-- C9 counterexample: with the external-processing flag off, the compile
body still hands the document to the resolver before ever consulting the
flag — the Context it builds carries no trace of the flag — and dumps
whatever the resolver produced.  Here the dumped tree is the
externally-expanded one, not the input document: directive processing during
resolution happened despite `--no-external`, refuting "external/include
directives are not processed during resolution". -/
theorem compile_no_external_still_resolves :
    compile externalExpandingCollab demoObj "." (.vmap [("otk.external.x", .vnull)]) false none =
        .dumped (.vmap [("expanded-external", .vint 1)]) ∧
      ((items (.vmap [("expanded-external", .vint 1)])).map Prod.fst ≠
        (items (.vmap [("otk.external.x", .vnull)])).map Prod.fst) :=
  ⟨rfl, by decide⟩

/-- C9 (amended): with the external-processing flag off, the compile body
performs no target selection, no registry lookup and no rendering — its
result is exactly a dump of the resolved tree, independent of the registry
contents — but the resolution pass itself is unaffected by the flag: the
resolver is invoked on the same Context and document before the flag is
consulted, so whatever directive processing the resolver performs (external
directives included) happens regardless. -/
theorem compile_no_external_only_dumps (collab : Collaborators) (obj : RootObj)
    (inputRoot : String) (doc : Value) (req : Option String) :
    compile collab obj inputRoot doc false req =
        .dumped (collab.resolve (initContext inputRoot obj) doc) ∧
      ∀ creg treg,
        compile { collab with contextRegistry := creg, targetRegistry := treg }
            obj inputRoot doc false req =
          compile collab obj inputRoot doc false req :=
  ⟨rfl, fun _ _ => rfl⟩

/-- C10: the startup identifier check uses Python truthiness: `-i ""`
without `-j` proceeds into the subcommand, while any non-empty identifier
without `-j` logs the configuration error and terminates with exit status 1
before the subcommand runs — the startup error is the same for every
subcommand argument bundle. -/
theorem identifier_startup_check_truthiness (warn : List String) (collab : Collaborators)
    (inputRoot : String) (doc : Value) (ext : Bool) (req : Option String) (s : String)
    (hs : s ≠ "") :
    cliRun false (some "") warn collab inputRoot doc ext req =
        .ran (compile collab { duplicateDefinitionsWarning := warn.contains "duplicate-definition" }
          inputRoot doc ext req) ∧
      cliRun false (some s) warn collab inputRoot doc ext req =
        .startupError "cannot use `-i` without also using `-j`" 1 := by
  constructor
  · rfl
  · unfold cliRun root
    have ht : identifierTruthy (some s) = true := by simp [identifierTruthy, hs]
    simp [ht]

theorem identifier_startup_check_truthiness_witness :
    cliRun false (some "id1") [] demoCollab "." .vnull true none =
      .startupError "cannot use `-i` without also using `-j`" 1 :=
  (identifier_startup_check_truthiness [] demoCollab "." .vnull true none "id1" (by decide)).2
